import Mathlib

/-!
# castlejoe: GPU evaluation of uniform cubic B-splines

A shallow embedding of `castlejoe.h`.

* `float` values are exact rationals (`ℚ`).
* `int` is 32 bits wide and signed.  An `int` operation whose result does not
  fit is undefined behaviour: the model returns `none` there (`mulInt`, the
  counter of `intLoop`) and every function that runs such an operation returns
  an `Option`.
* `GLuint` and the GLSL `uint` are 32 bits wide and unsigned: conversions to
  them and `uint` arithmetic are reduced modulo `2^32`.
* `size_t` values are element counts and byte sizes of objects that exist in
  memory; they stay far below `2^64` and are kept as naturals.
* The OpenGL context is an explicit state (`GLState`) threaded through every
  call; buffer contents are lists of 16-byte points whose slots are `none`
  while their content is undefined.  Error flags are not tracked.
-/

namespace castlejoe

/-! ## Machine integers -/

/-- The largest `int`, `INT_MAX`. -/
def INT_MAX : Nat := 2147483647

/-- Conversion of an integer value to `int`: the value itself when it fits,
otherwise the value reduced modulo `2^32` into the `int` range. -/
def toInt (x : Int) : Int :=
  (x + 2147483648) % 4294967296 - 2147483648

/-- Conversion of an integer value to `GLuint`: reduction modulo `2^32`. -/
def toGLuint (x : Int) : Nat :=
  (x % 4294967296).toNat

/-- The `int` product `a * b`: `none` when the product does not fit an `int`
(signed overflow, undefined behaviour). -/
def mulInt (a b : Int) : Option Int :=
  if -2147483648 ≤ a * b ∧ a * b ≤ 2147483647 then some (a * b) else none

/-- The `uint` sum `a + b` of GLSL: reduced modulo `2^32`. -/
def addUint (a b : Nat) : Nat :=
  (a + b) % 4294967296

/-- The `uint` product `a * b` of GLSL: reduced modulo `2^32`. -/
def mulUint (a b : Nat) : Nat :=
  (a * b) % 4294967296

/-- Running `body 0`, ..., `body (n-1)` in this order on a state. -/
def forEach {σ : Type} (n : Nat) (body : Nat → σ → σ) (init : σ) : σ :=
  (List.range n).foldl (fun s i => body i s) init

/-- The loop `for (int i = 0; i < n; ++i) body(i)` with its `int` counter: each
iteration runs the body and then `++i`, which overflows when `i` is `INT_MAX`.
The result is `none` when the loop reaches that increment (undefined
behaviour). -/
def intLoop {σ : Type} (n : Nat) (body : Nat → σ → σ) (init : σ) : Option σ :=
  (List.range n).foldl
    (fun acc i =>
      match acc with
      | none => none
      | some st => if i < INT_MAX then some (body i st) else none)
    (some init)

namespace point

/-- The canonical point `struct Point { float x, y, z, w; }`. -/
structure Point where
  x : ℚ
  y : ℚ
  z : ℚ
  w : ℚ
deriving DecidableEq

/-- The value of `sizeof(Point)`: four 4-byte floats. -/
def sizeofPoint : Nat := 16

end point

namespace shaders
namespace source

/-- GLSL `vec4`; a `vec4` array in a std140 buffer has the layout of `Point[]`. -/
abbrev vec4 := point.Point

/-- GLSL `mat4`: four column vectors. -/
structure mat4 where
  c0 : vec4
  c1 : vec4
  c2 : vec4
  c3 : vec4
deriving DecidableEq

/-- GLSL `float * vec4`. -/
def vec4.smul (k : ℚ) (v : vec4) : vec4 :=
  ⟨k * v.x, k * v.y, k * v.z, k * v.w⟩

/-- GLSL `vec4 + vec4`. -/
def vec4.add (a b : vec4) : vec4 :=
  ⟨a.x + b.x, a.y + b.y, a.z + b.z, a.w + b.w⟩

/-- GLSL `mat4(s0, ..., s15)`: sixteen scalars fill the matrix column by column. -/
def mat4.ofScalars (a0 a1 a2 a3 b0 b1 b2 b3 c0 c1 c2 c3 d0 d1 d2 d3 : ℚ) : mat4 :=
  ⟨⟨a0, a1, a2, a3⟩, ⟨b0, b1, b2, b3⟩, ⟨c0, c1, c2, c3⟩, ⟨d0, d1, d2, d3⟩⟩

/-- GLSL `mat4(v0, v1, v2, v3)`: four vectors become the four columns. -/
def mat4.ofColumns (v0 v1 v2 v3 : vec4) : mat4 :=
  ⟨v0, v1, v2, v3⟩

/-- GLSL `float * mat4`. -/
def mat4.smul (k : ℚ) (m : mat4) : mat4 :=
  ⟨vec4.smul k m.c0, vec4.smul k m.c1, vec4.smul k m.c2, vec4.smul k m.c3⟩

/-- GLSL `mat4 * vec4`: the linear combination of the columns. -/
def mat4.mulVec (m : mat4) (v : vec4) : vec4 :=
  vec4.add (vec4.add (vec4.add (vec4.smul v.x m.c0) (vec4.smul v.y m.c1))
    (vec4.smul v.z m.c2)) (vec4.smul v.w m.c3)

/-- GLSL `mat4 * mat4`: the left factor applied to each column of the right one. -/
def mat4.mul (a b : mat4) : mat4 :=
  ⟨a.mulVec b.c0, a.mulVec b.c1, a.mulVec b.c2, a.mulVec b.c3⟩

/-- The value of `gl_WorkGroupSize.x`, from `layout(local_size_x = 101, ...)`. -/
def gl_WorkGroupSize : Nat := 101

/-- The built-in `gl_GlobalInvocationID.x`:
`gl_WorkGroupID.x * gl_WorkGroupSize.x + gl_LocalInvocationID.x` in `uint`
arithmetic. -/
def gl_GlobalInvocationID (gl_WorkGroupID gl_LocalInvocationID : Nat) : Nat :=
  addUint (mulUint gl_WorkGroupID gl_WorkGroupSize) gl_LocalInvocationID

/-- A load `ControlPoints[j]` from the input buffer: `none` when `j` is outside
the buffer or the slot holds undefined content. -/
def loadControlPoint (ControlPoints : List (Option vec4)) (j : Nat) : Option vec4 :=
  (ControlPoints[j]?).join

/-- The shared variable `coefficients` as written by invocation 0. -/
def coefficients : mat4 :=
  mat4.smul (1.0 / 6.0) (mat4.ofScalars
    (-1) 3 (-3) 1
    3 (-6) 3 0
    (-3) 0 3 0
    1 4 1 0)

/-- The shared variable `geometry` as written by invocation 0 of work group
`gl_WorkGroupID`; the indices `pointStartIndex + k` are `uint` sums. -/
def geometry (ControlPoints : List (Option vec4)) (gl_WorkGroupID : Nat) : Option mat4 :=
  let pointStartIndex := gl_WorkGroupID
  match loadControlPoint ControlPoints pointStartIndex,
      loadControlPoint ControlPoints (addUint pointStartIndex 1),
      loadControlPoint ControlPoints (addUint pointStartIndex 2),
      loadControlPoint ControlPoints (addUint pointStartIndex 3) with
  | some p0, some p1, some p2, some p3 => some (mat4.ofColumns p0 p1 p2 p3)
  | _, _, _, _ => none

/-- The vector `paramVec` of invocation `gl_LocalInvocationID`. -/
def paramVec (gl_LocalInvocationID : Nat) : vec4 :=
  let t : ℚ := (gl_LocalInvocationID : ℚ) * 0.01
  let t2 := t * t
  let t3 := t2 * t
  ⟨t3, t2, t, 1⟩

/-- The kernel `main` for one invocation, after the barrier: the slot of
`CurvePoints` it stores to and the stored value
`geometry * coefficients * paramVec`.  The result is `none` when a control-point
load of the group fails. -/
def CubicBSpline (ControlPoints : List (Option vec4))
    (gl_WorkGroupID gl_LocalInvocationID : Nat) : Option (Nat × vec4) :=
  match geometry ControlPoints gl_WorkGroupID with
  | none => none
  | some g =>
    some (gl_GlobalInvocationID gl_WorkGroupID gl_LocalInvocationID,
      mat4.mulVec (mat4.mul g coefficients) (paramVec gl_LocalInvocationID))

end source
end shaders

open point

/-! ## The OpenGL context -/

namespace gl

/-- A buffer object: the size of its data store in bytes and the store read as
an array of 16-byte points (`none`: the slot holds undefined content). -/
structure BufferObject where
  size : Nat
  data : List (Option Point)

/-- The part of the OpenGL context the library touches, with the function-local
static `programs` of `Shaders::getProgram` kept alongside. -/
structure GLState where
  /-- Buffer objects by name. -/
  buffers : Nat → BufferObject
  /-- The next unused buffer name. -/
  nextBuffer : Nat
  /-- The next unused shader or program name. -/
  nextObject : Nat
  /-- The buffer bound to the generic `GL_SHADER_STORAGE_BUFFER` target. -/
  shaderStorageBinding : Nat
  /-- The indexed `GL_SHADER_STORAGE_BUFFER` binding points. -/
  shaderStorageBase : Nat → Nat
  /-- The program installed by `glUseProgram`. -/
  currentProgram : Nat
  /-- The static vector of `Shaders::getProgram`, `none` before its first use. -/
  programs : Option (List Nat)
  /-- The group counts of the compute dispatches issued so far, oldest first. -/
  dispatches : List Nat
  /-- The number of memory barriers recorded so far. -/
  barriers : Nat

/-- A context in which nothing has been created yet. -/
def GLState.initial : GLState :=
  { buffers := fun _ => ⟨0, []⟩, nextBuffer := 1, nextObject := 1, shaderStorageBinding := 0,
    shaderStorageBase := fun _ => 0, currentProgram := 0, programs := none, dispatches := [],
    barriers := 0 }

/-- The call `glGenBuffers(1, &name)`: returns an unused buffer name. -/
def glGenBuffers (s : GLState) : Nat × GLState :=
  (s.nextBuffer, { s with nextBuffer := s.nextBuffer + 1 })

/-- The calls `glCreateShader` and `glCreateProgram`: return an unused object name. -/
def glCreateObject (s : GLState) : Nat × GLState :=
  (s.nextObject, { s with nextObject := s.nextObject + 1 })

/-- The call `glBindBuffer(GL_SHADER_STORAGE_BUFFER, buffer)`. -/
def glBindBuffer (s : GLState) (buffer : Nat) : GLState :=
  { s with shaderStorageBinding := buffer }

/-- The call `glBufferData(GL_SHADER_STORAGE_BUFFER, size, NULL, GL_STATIC_DRAW)`:
the bound buffer gets a new data store of `size` bytes with undefined content. -/
def glBufferData (s : GLState) (size : Nat) : GLState :=
  { s with buffers := (Function.update s.buffers s.shaderStorageBinding
      ⟨size, List.replicate (size / sizeofPoint) none⟩) }

/-- A pointer returned by `glMapBufferRange`: the mapped buffer and the index of
the first mapped point. -/
structure Mapped where
  buffer : Nat
  first : Nat

/-- The call `glMapBufferRange(GL_SHADER_STORAGE_BUFFER, offset, length, access)`.
It returns `NULL` (`none`) when `length` is zero or the range leaves the data
store; with `GL_MAP_INVALIDATE_BUFFER_BIT` the previous content of the buffer
becomes undefined. -/
def glMapBufferRange (s : GLState) (offset length : Nat) (invalidate : Bool) :
    Option Mapped × GLState :=
  let b := s.buffers s.shaderStorageBinding
  if length = 0 ∨ b.size < offset + length then (none, s)
  else
    (some ⟨s.shaderStorageBinding, offset / sizeofPoint⟩,
      if invalidate then
        { s with buffers := (Function.update s.buffers s.shaderStorageBinding
            ⟨b.size, List.replicate b.data.length none⟩) }
      else s)

/-- The store `ptr[i] = p` through a mapped pointer.  A store through `NULL`
changes nothing in the context. -/
def storeMapped (s : GLState) (ptr : Option Mapped) (i : Nat) (p : Point) : GLState :=
  match ptr with
  | none => s
  | some m =>
    { s with buffers := (Function.update s.buffers m.buffer
        ⟨(s.buffers m.buffer).size, (s.buffers m.buffer).data.set (m.first + i) (some p)⟩) }

/-- The load `ptr[i]` through a mapped pointer: `none` when the pointer is
`NULL`, the slot is outside the data store or its content is undefined. -/
def loadMapped (s : GLState) (ptr : Option Mapped) (i : Nat) : Option Point :=
  match ptr with
  | none => none
  | some m => ((s.buffers m.buffer).data[m.first + i]?).join

/-- The call `glUnmapBuffer(GL_SHADER_STORAGE_BUFFER)`: the stores made through
the pointer are already in the data store. -/
def glUnmapBuffer (s : GLState) : GLState := s

/-- The call `glUseProgram(program)`. -/
def glUseProgram (s : GLState) (program : Nat) : GLState :=
  { s with currentProgram := program }

/-- The call `glBindBufferBase(GL_SHADER_STORAGE_BUFFER, index, buffer)`: binds
the indexed binding point and the generic one. -/
def glBindBufferBase (s : GLState) (index buffer : Nat) : GLState :=
  { s with shaderStorageBase := Function.update s.shaderStorageBase index buffer,
           shaderStorageBinding := buffer }

/-- The store `CurvePoints[j] = v` of one invocation; an invocation whose
control-point loads failed stores nothing, and so does a store outside the
buffer. -/
def storeCurvePoint (CurvePoints : List (Option Point)) (w : Option (Nat × Point)) :
    List (Option Point) :=
  match w with
  | none => CurvePoints
  | some (j, v) => CurvePoints.set j (some v)

/-- All `gl_WorkGroupSize` invocations of work group `g` of the cubic B-spline
kernel. -/
def runWorkGroup (ControlPoints : List (Option Point)) (g : Nat)
    (CurvePoints : List (Option Point)) : List (Option Point) :=
  forEach shaders.source.gl_WorkGroupSize
    (fun i out => storeCurvePoint out (shaders.source.CubicBSpline ControlPoints g i)) CurvePoints

/-- All work groups `0 .. num_groups_x - 1` of the cubic B-spline kernel. -/
def runWorkGroups (ControlPoints : List (Option Point)) (num_groups_x : Nat)
    (CurvePoints : List (Option Point)) : List (Option Point) :=
  forEach num_groups_x (fun g out => runWorkGroup ControlPoints g out) CurvePoints

/-- The call `glDispatchCompute(num_groups_x, 1, 1)` with the cubic B-spline
program installed: the kernel reads `ControlPoints` from binding 0 and stores
into `CurvePoints` at binding 1. -/
def glDispatchCompute (s : GLState) (num_groups_x : Nat) : GLState :=
  let ControlPoints := (s.buffers (s.shaderStorageBase 0)).data
  let out := s.buffers (s.shaderStorageBase 1)
  { s with
    buffers := (Function.update s.buffers (s.shaderStorageBase 1)
      ⟨out.size, runWorkGroups ControlPoints num_groups_x out.data⟩),
    dispatches := s.dispatches ++ [num_groups_x] }

/-- The call `glMemoryBarrier(GL_SHADER_STORAGE_BARRIER_BIT)`. -/
def glMemoryBarrier (s : GLState) : GLState :=
  { s with barriers := s.barriers + 1 }

end gl

open gl

namespace shaders

/-- The enumerator `Type::CUBIC_B_SPLINE`. -/
def CUBIC_B_SPLINE : Nat := 0

namespace Shaders

/-- The constant `SHADER_COUNT`. -/
def SHADER_COUNT : Nat := 1

/-- The function `initializeProgams`: one shader and one linked program per
kernel source of the array `shaderSourceMapping`. -/
def initializeProgams (s : GLState) : List Nat × GLState :=
  forEach SHADER_COUNT
    (fun _ acc =>
      let (_sh, s1) := glCreateObject acc.2
      let (program, s2) := glCreateObject s1
      (acc.1 ++ [program], s2))
    ([], s)

/-- The function `getProgram`: the static vector is filled on the first call. -/
def getProgram (s : GLState) (type : Nat) : Nat × GLState :=
  match s.programs with
  | some programs => (programs.getD type 0, s)
  | none =>
    let (programs, s1) := initializeProgams s
    (programs.getD type 0, { s1 with programs := some programs })

end Shaders
end shaders

namespace point

/-- The class template `Converter<PointType>`. -/
class Converter (PointType : Type) where
  convertFrom : PointType → Point
  convertTo : Point → PointType

/-- The specialisation `Converter<Point>`. -/
instance instConverterPoint : Converter Point where
  convertFrom := fun p => p
  convertTo := fun p => p

/-- The class template `ControlPointContext<PointType>`. -/
structure ControlPointContext (PointType : Type) where
  points : List Point
  pointBuffer : Nat

namespace ControlPointContext

variable {PointType : Type}

/-- The constructor: generates the name of the point buffer. -/
def new (s : GLState) : ControlPointContext PointType × GLState :=
  let (pointBuffer, s1) := glGenBuffers s
  (⟨[], pointBuffer⟩, s1)

/-- The method `fillBuffer`; `none` when the `int` counter of its copy loop
overflows. -/
def fillBuffer (self : ControlPointContext PointType) (s : GLState) : Option GLState :=
  let s1 := glBindBuffer s self.pointBuffer
  let s2 := glBufferData s1 (self.points.length * sizeofPoint)
  let (bufferPoints, s3) := glMapBufferRange s2 0 (self.points.length * sizeofPoint) true
  let s4 := intLoop self.points.length
    (fun i st =>
      match self.points[i]? with
      | some p => storeMapped st bufferPoints i p
      | none => st)
    s3
  s4.map glUnmapBuffer

/-- The method `setPoints`: the store and the context after the call, `none`
when `fillBuffer` runs into undefined behaviour. -/
def setPoints [Converter PointType] (self : ControlPointContext PointType)
    (points : List PointType) (s : GLState) :
    Option (ControlPointContext PointType × GLState) :=
  let cleared : ControlPointContext PointType := { self with points := [] }
  let filled : ControlPointContext PointType :=
    { cleared with
      points := points.foldl (fun acc p => acc ++ [Converter.convertFrom p]) cleared.points }
  (filled.fillBuffer s).map (fun s1 => (filled, s1))

/-- The method `getPointCount`. -/
def getPointCount (self : ControlPointContext PointType) : Nat :=
  self.points.length

/-- The method `getPoints`. -/
def getPoints (self : ControlPointContext PointType) : List Point :=
  self.points

/-- The method `getPointBuffer`. -/
def getPointBuffer (self : ControlPointContext PointType) : Nat :=
  self.pointBuffer

end ControlPointContext
end point

namespace curve

/-- The struct template `Evaluation<PointType>`. -/
structure Evaluation (PointType : Type) where
  buffer : Nat
  pointCount : Nat

/-- The method `Evaluation::extractPoints`: the extracted points and the context
after the call.  The points are `none` when a load through the mapped pointer
fails or the `int` counter of the loop overflows. -/
def Evaluation.extractPoints {PointType : Type} [Converter PointType]
    (self : Evaluation PointType) (s : GLState) : Option (List PointType) × GLState :=
  let s1 := glBindBuffer s self.buffer
  let (outPoints, s2) := glMapBufferRange s1 0 (self.pointCount * sizeofPoint) false
  let curvePoints := intLoop self.pointCount
    (fun i acc =>
      match acc, loadMapped s2 outPoints i with
      | some cps, some p => some (cps ++ [Converter.convertTo p])
      | _, _ => none)
    (some [])
  (curvePoints.join, glUnmapBuffer s2)

/-- The class template `CubicBSpline<PointType>`; the reference
`controlPointContext` of the base class `Curve` is passed to the methods. -/
structure CubicBSpline (PointType : Type) where
  controlPointBuffer : Nat
  curvePointBuffer : Nat

namespace CubicBSpline

variable {PointType : Type}

/-- The constructor: generates the names of two buffers. -/
def new (s : GLState) : CubicBSpline PointType × GLState :=
  let (controlPointBuffer, s1) := glGenBuffers s
  let (curvePointBuffer, s2) := glGenBuffers s1
  (⟨controlPointBuffer, curvePointBuffer⟩, s2)

/-- Modelled from the spec: the member `controlPoints` that `evaluateCurve`
reads is declared nowhere in the header; the spec gives the segment count as
`controlPointCount - 3`, so it is the point sequence of the control point
store. -/
def controlPoints (controlPointContext : ControlPointContext PointType) : List Point :=
  controlPointContext.getPoints

/-- The local `int groupCount = controlPoints.size() - 3;` of `evaluateCurve`:
the `size_t` difference converted to `int`, that is the integer `size - 3`
reduced into the `int` range. -/
def groupCount (controlPointContext : ControlPointContext PointType) : Int :=
  toInt (((controlPoints controlPointContext).length : Int) - 3)

/-- The local `GLuint outputCount = groupCount * 101;` of `evaluateCurve`: the
`int` product converted to `GLuint`, `none` when the product overflows. -/
def outputCount (controlPointContext : ControlPointContext PointType) : Option Nat :=
  (mulInt (groupCount controlPointContext) 101).map toGLuint

/-- The calls of `evaluateCurve` after its two locals are computed. -/
def evaluateCurveCalls (self : CubicBSpline PointType)
    (controlPointContext : ControlPointContext PointType) (groupCount : Int)
    (outputCount : Nat) (s : GLState) : Evaluation PointType × GLState :=
  let s1 := glBindBuffer s self.curvePointBuffer
  let s2 := glBufferData s1 (outputCount * sizeofPoint)
  let (program, s3) := shaders.Shaders.getProgram s2 shaders.CUBIC_B_SPLINE
  let s4 := glUseProgram s3 program
  let s5 := glBindBufferBase s4 0 controlPointContext.getPointBuffer
  let s6 := glBindBufferBase s5 1 self.curvePointBuffer
  let s7 := glDispatchCompute s6 (toGLuint groupCount)
  let s8 := glMemoryBarrier s7
  (⟨self.curvePointBuffer, outputCount⟩, s8)

/-- The method `evaluateCurve`: the Evaluation and the context after the call,
`none` when the `int` product `groupCount * 101` overflows. -/
def evaluateCurve (self : CubicBSpline PointType)
    (controlPointContext : ControlPointContext PointType) (s : GLState) :
    Option (Evaluation PointType × GLState) :=
  if controlPointContext.getPointCount < 4 then
    some (⟨0, 0⟩, s)
  else
    (outputCount controlPointContext).map (fun outputCount =>
      evaluateCurveCalls self controlPointContext (groupCount controlPointContext)
        outputCount s)

end CubicBSpline
end curve

/-! ## Reference formulas -/

/-- The uniform cubic B-spline point of four control points at parameter `t`,
written with the four basis polynomials. -/
def splinePoint (p0 p1 p2 p3 : Point) (t : ℚ) : Point :=
  let b0 : ℚ := (-t ^ 3 + 3 * t ^ 2 - 3 * t + 1) / 6
  let b1 : ℚ := (3 * t ^ 3 - 6 * t ^ 2 + 4) / 6
  let b2 : ℚ := (-3 * t ^ 3 + 3 * t ^ 2 + 3 * t + 1) / 6
  let b3 : ℚ := t ^ 3 / 6
  ⟨b0 * p0.x + b1 * p1.x + b2 * p2.x + b3 * p3.x,
   b0 * p0.y + b1 * p1.y + b2 * p2.y + b3 * p3.y,
   b0 * p0.z + b1 * p1.z + b2 * p2.z + b3 * p3.z,
   b0 * p0.w + b1 * p1.w + b2 * p2.w + b3 * p3.w⟩

/-- The closed-form blend `(1/6) a + (4/6) b + (1/6) c` at a knot. -/
def knotBlend (a b c : Point) : Point :=
  ⟨1 / 6 * a.x + 4 / 6 * b.x + 1 / 6 * c.x,
   1 / 6 * a.y + 4 / 6 * b.y + 1 / 6 * c.y,
   1 / 6 * a.z + 4 / 6 * b.z + 1 / 6 * c.z,
   1 / 6 * a.w + 4 / 6 * b.w + 1 / 6 * c.w⟩

/-- A point as a column vector. -/
def toVector (p : Point) : Fin 4 → ℚ :=
  ![p.x, p.y, p.z, p.w]

/-- The geometry matrix in the words of the spec: the 4×4 matrix whose rows are
the four control points. -/
def specGeometry (p0 p1 p2 p3 : Point) : Matrix (Fin 4) (Fin 4) ℚ :=
  !![p0.x, p0.y, p0.z, p0.w;
     p1.x, p1.y, p1.z, p1.w;
     p2.x, p2.y, p2.z, p2.w;
     p3.x, p3.y, p3.z, p3.w]

/-- The basis coefficient matrix in the words of the spec: 1/6 times the matrix
whose rows are `[-1,3,-3,1]`, `[3,-6,3,0]`, `[-3,0,3,0]`, `[1,4,1,0]`. -/
def specCoefficients : Matrix (Fin 4) (Fin 4) ℚ :=
  (1 / 6 : ℚ) • !![-1, 3, -3, 1;
                   3, -6, 3, 0;
                   -3, 0, 3, 0;
                   1, 4, 1, 0]

/-- The parameter vector `[t³, t², t, 1]` with `t = i * 0.01`. -/
def specParameterVector (i : Nat) : Fin 4 → ℚ :=
  ![((i : ℚ) * 0.01) ^ 3, ((i : ℚ) * 0.01) ^ 2, (i : ℚ) * 0.01, 1]

/-- The sample in the words of the spec: `geometry × coefficients ×
parameterVector` with the two matrices built from rows. -/
def specSample (p0 p1 p2 p3 : Point) (i : Nat) : Fin 4 → ℚ :=
  (specGeometry p0 p1 p2 p3 * specCoefficients).mulVec (specParameterVector i)

/-- The same product with the control points and the four coefficient lists
taken as the columns of the two matrices. -/
def columnSample (p0 p1 p2 p3 : Point) (i : Nat) : Fin 4 → ℚ :=
  ((specGeometry p0 p1 p2 p3).transpose * specCoefficients.transpose).mulVec
    (specParameterVector i)

/-- A buffer object holds the points `pts` in its first slots: its data store
is large enough for them and slot `k` has the defined content `pts[k]`. -/
def gl.BufferObject.holds (b : gl.BufferObject) (pts : List Point) : Prop :=
  pts.length * sizeofPoint ≤ b.size ∧
    ∀ (k : Nat) (p : Point), pts[k]? = some p → b.data[k]? = some (some p)

/-! ## Inputs used in the concrete checks -/

/-- A sequence of 42524432 copies of one point. -/
def largePoints : List Point :=
  List.replicate 42524432 ⟨0, 0, 0, 1⟩

/-- A control point store holding `largePoints`, with point buffer 1. -/
def largeContext : point.ControlPointContext Point :=
  ⟨largePoints, 1⟩

/-- A sequence of 42524433 copies of one point. -/
def largerPoints : List Point :=
  List.replicate 42524433 ⟨0, 0, 0, 1⟩

/-- A sequence of `2^31 + 1` copies of one point. -/
def hugePoints : List Point :=
  List.replicate 2147483649 ⟨0, 0, 0, 1⟩

/-- A control point store holding three points, with point buffer 1. -/
def shortContext : point.ControlPointContext Point :=
  ⟨[⟨0, 0, 0, 1⟩, ⟨1, 2, 0, 1⟩, ⟨2, 2, 0, 1⟩], 1⟩

/-- The four control points of the concrete scenario of the spec. -/
def scenarioPoints : List Point :=
  [⟨0, 0, 0, 1⟩, ⟨1, 2, 0, 1⟩, ⟨2, 2, 0, 1⟩, ⟨3, 0, 0, 1⟩]

/-- Five control points: the scenario with one more point. -/
def fivePoints : List Point :=
  [⟨0, 0, 0, 1⟩, ⟨1, 2, 0, 1⟩, ⟨2, 2, 0, 1⟩, ⟨3, 0, 0, 1⟩, ⟨4, 1, 0, 1⟩]

/-- An empty control point store with point buffer 1. -/
def emptyContext : point.ControlPointContext Point :=
  ⟨[], 1⟩

/-- An evaluator whose output buffer is buffer 3. -/
def sampleSpline : curve.CubicBSpline Point :=
  ⟨2, 3⟩

/-! ## Loops and machine integers -/

section helpers

open curve

theorem forEach_zero {σ : Type} (body : Nat → σ → σ) (init : σ) :
    forEach 0 body init = init := by
  simp [forEach]

theorem forEach_succ {σ : Type} (n : Nat) (body : Nat → σ → σ) (init : σ) :
    forEach (n + 1) body init = body n (forEach n body init) := by
  simp [forEach, List.range_succ, List.foldl_append]

theorem forEach_congr {σ : Type} (n : Nat) (body body2 : Nat → σ → σ) (init : σ)
    (h : ∀ i, i < n → ∀ st, body i st = body2 i st) :
    forEach n body init = forEach n body2 init := by
  induction n with
  | zero => simp [forEach_zero]
  | succ k ih =>
    rw [forEach_succ, forEach_succ, ih (fun i hi st => h i (by omega) st), h k (by omega)]

theorem forEach_invariant {σ : Type} (P : σ → Prop) (n : Nat) (body : Nat → σ → σ)
    (init : σ) (h0 : P init) (hstep : ∀ i st, P st → P (body i st)) :
    P (forEach n body init) := by
  induction n with
  | zero => rw [forEach_zero]; exact h0
  | succ k ih => rw [forEach_succ]; exact hstep k _ ih

theorem intLoop_succ {σ : Type} (n : Nat) (body : Nat → σ → σ) (init : σ) :
    intLoop (n + 1) body init
      = match intLoop n body init with
        | none => none
        | some st => if n < INT_MAX then some (body n st) else none := by
  simp [intLoop, List.range_succ, List.foldl_append]

theorem intLoop_eq {σ : Type} (n : Nat) (body : Nat → σ → σ) (init : σ) :
    intLoop n body init = if n ≤ INT_MAX then some (forEach n body init) else none := by
  induction n with
  | zero => simp [intLoop, forEach]
  | succ k ih =>
    rw [intLoop_succ, ih]
    by_cases hk : k + 1 ≤ INT_MAX
    · have h1 : k ≤ INT_MAX := by omega
      have h2 : k < INT_MAX := by omega
      simp only [h1, h2, hk, if_true, forEach_succ]
    · by_cases h1 : k ≤ INT_MAX
      · have h2 : ¬ k < INT_MAX := by omega
        simp only [h1, h2, hk, if_true, if_false]
      · simp only [h1, hk, if_false]

theorem intLoop_of_le {σ : Type} (n : Nat) (body : Nat → σ → σ) (init : σ)
    (h : n ≤ INT_MAX) : intLoop n body init = some (forEach n body init) := by
  rw [intLoop_eq, if_pos h]

theorem intLoop_of_gt {σ : Type} (n : Nat) (body : Nat → σ → σ) (init : σ)
    (h : INT_MAX < n) : intLoop n body init = none := by
  rw [intLoop_eq, if_neg (by omega)]

theorem toInt_emod (x : Int) : toInt x % 4294967296 = x % 4294967296 := by
  unfold toInt
  omega

theorem toGLuint_toInt (x : Int) : toGLuint (toInt x) = toGLuint x := by
  unfold toGLuint
  rw [toInt_emod]

theorem toGLuint_natCast (m : Nat) : toGLuint (m : Int) = m % 4294967296 := by
  unfold toGLuint
  omega

theorem toInt_natCast (m : Nat) (h : m ≤ INT_MAX) : toInt (m : Int) = (m : Int) := by
  unfold INT_MAX at h
  unfold toInt
  omega

theorem sizeDifference_eq {PointType : Type} (ctx : ControlPointContext PointType)
    (h3 : 3 ≤ ctx.getPointCount) :
    ((CubicBSpline.controlPoints ctx).length : Int) - 3
      = ((ctx.getPointCount - 3 : Nat) : Int) := by
  have hlen : (CubicBSpline.controlPoints ctx).length = ctx.getPointCount := rfl
  rw [hlen]
  omega

theorem dispatchCount_eq {PointType : Type} (ctx : ControlPointContext PointType)
    (h3 : 3 ≤ ctx.getPointCount) :
    toGLuint (CubicBSpline.groupCount ctx) = (ctx.getPointCount - 3) % 4294967296 := by
  unfold CubicBSpline.groupCount
  rw [sizeDifference_eq ctx h3, toGLuint_toInt, toGLuint_natCast]

theorem groupCount_eq {PointType : Type} (ctx : ControlPointContext PointType)
    (h3 : 3 ≤ ctx.getPointCount) (h : ctx.getPointCount - 3 ≤ INT_MAX) :
    CubicBSpline.groupCount ctx = ((ctx.getPointCount - 3 : Nat) : Int) := by
  unfold CubicBSpline.groupCount
  rw [sizeDifference_eq ctx h3, toInt_natCast _ h]

theorem mulInt_natCast_inRange (a : Nat) (h : a * 101 ≤ INT_MAX) :
    mulInt (a : Int) 101 = some (((a * 101 : Nat) : Int)) := by
  have hcast : ((a : Int) * 101) = (((a * 101 : Nat)) : Int) := by
    push_cast
    ring
  unfold mulInt
  rw [hcast]
  unfold INT_MAX at h
  generalize a * 101 = m at h
  have hr : -2147483648 ≤ (m : Int) ∧ (m : Int) ≤ 2147483647 := by omega
  rw [if_pos hr]

theorem mulInt_natCast_overflow (a : Nat) (h : INT_MAX < a * 101) :
    mulInt (a : Int) 101 = none := by
  have hcast : ((a : Int) * 101) = (((a * 101 : Nat)) : Int) := by
    push_cast
    ring
  unfold mulInt
  rw [hcast]
  unfold INT_MAX at h
  generalize a * 101 = m at h
  have hr : ¬ (-2147483648 ≤ (m : Int) ∧ (m : Int) ≤ 2147483647) := by omega
  rw [if_neg hr]

theorem outputCount_inRange {PointType : Type} (ctx : ControlPointContext PointType)
    (h3 : 3 ≤ ctx.getPointCount) (h : (ctx.getPointCount - 3) * 101 ≤ INT_MAX) :
    CubicBSpline.outputCount ctx = some ((ctx.getPointCount - 3) * 101) := by
  have hg : ctx.getPointCount - 3 ≤ INT_MAX := by
    unfold INT_MAX at h ⊢
    omega
  have hlt : (ctx.getPointCount - 3) * 101 < 4294967296 := by
    unfold INT_MAX at h
    omega
  unfold CubicBSpline.outputCount
  rw [groupCount_eq ctx h3 hg, mulInt_natCast_inRange _ h, Option.map_some', toGLuint_natCast,
    Nat.mod_eq_of_lt hlt]

theorem outputCount_overflow {PointType : Type} (ctx : ControlPointContext PointType)
    (h3 : 3 ≤ ctx.getPointCount) (hg : ctx.getPointCount - 3 ≤ INT_MAX)
    (h : INT_MAX < (ctx.getPointCount - 3) * 101) :
    CubicBSpline.outputCount ctx = none := by
  unfold CubicBSpline.outputCount
  rw [groupCount_eq ctx h3 hg, mulInt_natCast_overflow _ h, Option.map_none']

theorem globalInvocationID_eq (g i : Nat) :
    shaders.source.gl_GlobalInvocationID g i = (g * 101 + i) % 4294967296 := by
  unfold shaders.source.gl_GlobalInvocationID shaders.source.gl_WorkGroupSize addUint mulUint
  rw [Nat.mod_add_mod]

theorem globalInvocationID_of_lt (g i : Nat) (h : g * 101 + i < 4294967296) :
    shaders.source.gl_GlobalInvocationID g i = g * 101 + i := by
  rw [globalInvocationID_eq, Nat.mod_eq_of_lt h]

theorem addUint_of_lt (a b : Nat) (h : a + b < 4294967296) : addUint a b = a + b :=
  Nat.mod_eq_of_lt h

theorem addUint_le (a b : Nat) : addUint a b ≤ a + b :=
  Nat.mod_le _ _

/-! ### The kernel -/

open shaders.source

theorem loadControlPoint_map_some (ps : List Point) (j : Nat) :
    loadControlPoint (ps.map some) j = ps[j]? := by
  unfold loadControlPoint
  rw [List.getElem?_map]
  cases ps[j]? <;> rfl

theorem geometry_map_some (ps : List Point) (g : Nat) (p0 p1 p2 p3 : Point)
    (hfit : g + 3 < 4294967296)
    (h0 : ps[g]? = some p0) (h1 : ps[g + 1]? = some p1) (h2 : ps[g + 2]? = some p2)
    (h3 : ps[g + 3]? = some p3) :
    geometry (ps.map some) g = some (mat4.ofColumns p0 p1 p2 p3) := by
  simp only [geometry, loadControlPoint_map_some, addUint_of_lt g 1 (by omega),
    addUint_of_lt g 2 (by omega), addUint_of_lt g 3 hfit, h0, h1, h2, h3]

theorem kernel_value (p0 p1 p2 p3 : Point) (i : Nat) :
    mat4.mulVec (mat4.mul (mat4.ofColumns p0 p1 p2 p3) coefficients) (paramVec i)
      = splinePoint p0 p1 p2 p3 ((i : ℚ) / 100) := by
  simp only [mat4.mulVec, mat4.mul, mat4.ofColumns, coefficients, mat4.smul, mat4.ofScalars,
    vec4.smul, vec4.add, paramVec, splinePoint, Point.mk.injEq]
  refine ⟨?_, ?_, ?_, ?_⟩ <;> norm_num <;> ring

theorem kernel_map_some_wrap (ps : List Point) (g i : Nat) (p0 p1 p2 p3 : Point)
    (hfit : g + 3 < 4294967296)
    (h0 : ps[g]? = some p0) (h1 : ps[g + 1]? = some p1) (h2 : ps[g + 2]? = some p2)
    (h3 : ps[g + 3]? = some p3) :
    shaders.source.CubicBSpline (ps.map some) g i
      = some ((g * 101 + i) % 4294967296, splinePoint p0 p1 p2 p3 ((i : ℚ) / 100)) := by
  simp only [shaders.source.CubicBSpline,
    geometry_map_some ps g p0 p1 p2 p3 hfit h0 h1 h2 h3, kernel_value,
    globalInvocationID_eq]

theorem kernel_map_some (ps : List Point) (g i : Nat) (p0 p1 p2 p3 : Point)
    (hfit : g * 101 + i < 4294967296)
    (h0 : ps[g]? = some p0) (h1 : ps[g + 1]? = some p1) (h2 : ps[g + 2]? = some p2)
    (h3 : ps[g + 3]? = some p3) :
    shaders.source.CubicBSpline (ps.map some) g i
      = some (g * 101 + i, splinePoint p0 p1 p2 p3 ((i : ℚ) / 100)) := by
  rw [kernel_map_some_wrap ps g i p0 p1 p2 p3 (by omega) h0 h1 h2 h3, Nat.mod_eq_of_lt hfit]

theorem splinePoint_zero (p0 p1 p2 p3 : Point) :
    splinePoint p0 p1 p2 p3 ((0 : Nat) / 100) = knotBlend p0 p1 p2 := by
  simp only [splinePoint, knotBlend, Point.mk.injEq]
  refine ⟨?_, ?_, ?_, ?_⟩ <;> norm_num

theorem splinePoint_one (p0 p1 p2 p3 : Point) :
    splinePoint p0 p1 p2 p3 ((100 : Nat) / 100) = knotBlend p1 p2 p3 := by
  simp only [splinePoint, knotBlend, Point.mk.injEq]
  refine ⟨?_, ?_, ?_, ?_⟩ <;> norm_num

theorem window_exists (ps : List Point) (g : Nat) (hg : g + 3 < ps.length) :
    ∃ p0 p1 p2 p3, ps[g]? = some p0 ∧ ps[g + 1]? = some p1 ∧ ps[g + 2]? = some p2 ∧
      ps[g + 3]? = some p3 :=
  ⟨ps[g], ps[g + 1], ps[g + 2], ps[g + 3], List.getElem?_eq_getElem _,
    List.getElem?_eq_getElem _, List.getElem?_eq_getElem _, List.getElem?_eq_getElem _⟩

theorem splinePoint_toVector (p0 p1 p2 p3 : Point) (i : Nat) :
    toVector (splinePoint p0 p1 p2 p3 ((i : ℚ) / 100)) = columnSample p0 p1 p2 p3 i := by
  ext k
  simp only [columnSample, Matrix.mulVec, Matrix.dotProduct, Matrix.mul_apply,
    Matrix.transpose_apply, Fin.sum_univ_four, specGeometry, specCoefficients,
    specParameterVector, Matrix.smul_apply, Matrix.of_apply, Matrix.cons_val_zero,
    Matrix.cons_val_one, Matrix.head_cons, Matrix.cons_val_two, Matrix.cons_val_three,
    Matrix.tail_cons, toVector, splinePoint, smul_eq_mul]
  fin_cases k <;> simp <;> norm_num <;> ring

theorem geometry_isSome (ps : List Point) (g : Nat) (hg : g + 3 < ps.length) :
    (geometry (ps.map some) g).isSome = true := by
  have hload : ∀ j, j < ps.length → ∃ p, loadControlPoint (ps.map some) j = some p := by
    intro j hj
    exact ⟨ps[j], by rw [loadControlPoint_map_some, List.getElem?_eq_getElem hj]⟩
  have hle1 := addUint_le g 1
  have hle2 := addUint_le g 2
  have hle3 := addUint_le g 3
  obtain ⟨p0, h0⟩ := hload g (by omega)
  obtain ⟨p1, h1⟩ := hload (addUint g 1) (by omega)
  obtain ⟨p2, h2⟩ := hload (addUint g 2) (by omega)
  obtain ⟨p3, h3⟩ := hload (addUint g 3) (by omega)
  simp only [geometry, h0, h1, h2, h3, Option.isSome_some]

/-! ### Loops that store into a list -/

theorem length_storeLoop {α : Type} (base k : Nat) (v : Nat → α) (d : List (Option α)) :
    (forEach k (fun i out => out.set (base + i) (some (v i))) d).length = d.length := by
  induction k with
  | zero => simp [forEach_zero]
  | succ k ih => rw [forEach_succ, List.length_set, ih]

theorem getElem?_storeLoop {α : Type} (base k : Nat) (v : Nat → α) (d : List (Option α))
    (j : Nat) :
    (forEach k (fun i out => out.set (base + i) (some (v i))) d)[j]?
      = if base ≤ j ∧ j < base + k ∧ j < d.length then some (some (v (j - base)))
        else d[j]? := by
  induction k with
  | zero =>
    rw [forEach_zero]
    have : ¬ (base ≤ j ∧ j < base + 0 ∧ j < d.length) := by omega
    rw [if_neg this]
  | succ k ih =>
    rw [forEach_succ, List.getElem?_set, length_storeLoop, ih]
    by_cases hj : base + k = j
    · subst hj
      by_cases hl : base + k < d.length
      · have h1 : base ≤ base + k ∧ base + k < base + (k + 1) ∧ base + k < d.length := by
          omega
        rw [if_pos rfl, if_pos hl, if_pos h1, Nat.add_sub_cancel_left]
      · have h1 : ¬ (base ≤ base + k ∧ base + k < base + (k + 1) ∧ base + k < d.length) := by
          omega
        rw [if_pos rfl, if_neg hl, if_neg h1]
        exact (List.getElem?_eq_none (by omega)).symm
    · rw [if_neg hj]
      by_cases h1 : base ≤ j ∧ j < base + k ∧ j < d.length
      · have h2 : base ≤ j ∧ j < base + (k + 1) ∧ j < d.length := by omega
        rw [if_pos h1, if_pos h2]
      · have h2 : ¬ (base ≤ j ∧ j < base + (k + 1) ∧ j < d.length) := by omega
        rw [if_neg h1, if_neg h2]

theorem foldl_push_back {α β : Type} (f : α → β) (l : List α) (init : List β) :
    l.foldl (fun acc p => acc ++ [f p]) init = init ++ l.map f := by
  induction l generalizing init with
  | nil => simp
  | cons a l ih => simp [ih]

/-! ### The dispatch -/

theorem length_storeCurvePoint (out : List (Option Point)) (w : Option (Nat × Point)) :
    (storeCurvePoint out w).length = out.length := by
  cases w with
  | none => rfl
  | some w => simp [storeCurvePoint]

theorem length_runWorkGroup (cp : List (Option Point)) (g : Nat) (out : List (Option Point)) :
    (runWorkGroup cp g out).length = out.length :=
  forEach_invariant (fun d : List (Option Point) => d.length = out.length) _ _ _ rfl
    (fun _ st h => by
      show (storeCurvePoint st _).length = out.length
      rw [length_storeCurvePoint]; exact h)

theorem length_runWorkGroups (cp : List (Option Point)) (n : Nat)
    (out : List (Option Point)) : (runWorkGroups cp n out).length = out.length :=
  forEach_invariant (fun d : List (Option Point) => d.length = out.length) _ _ _ rfl
    (fun _ st h => by
      show (runWorkGroup cp _ st).length = out.length
      rw [length_runWorkGroup]; exact h)

theorem runWorkGroup_getElem? (ps : List Point) (g : Nat) (out : List (Option Point))
    (p0 p1 p2 p3 : Point) (hfit : g * 101 + 101 ≤ 4294967296)
    (h0 : ps[g]? = some p0) (h1 : ps[g + 1]? = some p1)
    (h2 : ps[g + 2]? = some p2) (h3 : ps[g + 3]? = some p3) (j : Nat) :
    (runWorkGroup (ps.map some) g out)[j]?
      = if g * 101 ≤ j ∧ j < g * 101 + 101 ∧ j < out.length then
          some (some (splinePoint p0 p1 p2 p3 (((j - g * 101 : Nat) : ℚ) / 100)))
        else out[j]? := by
  have hbody : ∀ i, i < 101 → ∀ st : List (Option Point),
      storeCurvePoint st (shaders.source.CubicBSpline (ps.map some) g i)
        = st.set (g * 101 + i) (some (splinePoint p0 p1 p2 p3 ((i : ℚ) / 100))) := by
    intro i hi st
    rw [kernel_map_some ps g i p0 p1 p2 p3 (by omega) h0 h1 h2 h3]
    rfl
  unfold runWorkGroup
  rw [show shaders.source.gl_WorkGroupSize = 101 from rfl, forEach_congr 101 _ _ out hbody]
  exact getElem?_storeLoop (g * 101) 101
    (fun i => splinePoint p0 p1 p2 p3 ((i : ℚ) / 100)) out j

theorem runWorkGroups_getElem? (ps : List Point) (n : Nat) (out : List (Option Point))
    (hn : n + 3 ≤ ps.length) (hfit : n * 101 ≤ 4294967296) (g i : Nat) (hg : g < n)
    (hi : i < 101) (hj : g * 101 + i < out.length) :
    ∃ v, shaders.source.CubicBSpline (ps.map some) g i = some (g * 101 + i, v) ∧
      (runWorkGroups (ps.map some) n out)[g * 101 + i]? = some (some v) := by
  induction n with
  | zero => omega
  | succ m ih =>
    obtain ⟨p0, p1, p2, p3, h0, h1, h2, h3⟩ := window_exists ps m (by omega)
    have hstep : runWorkGroups (ps.map some) (m + 1) out
        = runWorkGroup (ps.map some) m (runWorkGroups (ps.map some) m out) := by
      unfold runWorkGroups
      rw [forEach_succ]
    rw [hstep, runWorkGroup_getElem? ps m _ p0 p1 p2 p3 (by omega) h0 h1 h2 h3,
      length_runWorkGroups]
    by_cases hgm : g = m
    · subst hgm
      have hc : g * 101 ≤ g * 101 + i ∧ g * 101 + i < g * 101 + 101 ∧
          g * 101 + i < out.length := by omega
      rw [if_pos hc, Nat.add_sub_cancel_left]
      exact ⟨_, kernel_map_some ps g i p0 p1 p2 p3 (by omega) h0 h1 h2 h3, rfl⟩
    · have hc : ¬ (m * 101 ≤ g * 101 + i ∧ g * 101 + i < m * 101 + 101 ∧
          g * 101 + i < out.length) := by omega
      rw [if_neg hc]
      exact ih (by omega) (by omega) (by omega)

/-! ### The host side -/

theorem storeLoop_state (pts : List Point) (pb k : Nat) (st : GLState) :
    forEach k
      (fun i st =>
        match pts[i]? with
        | some p => storeMapped st (some ⟨pb, 0⟩) i p
        | none => st) st
    = { st with buffers := (Function.update st.buffers pb
          ⟨(st.buffers pb).size,
            forEach k
              (fun i d =>
                match pts[i]? with
                | some p => d.set (0 + i) (some p)
                | none => d) (st.buffers pb).data⟩) } := by
  induction k with
  | zero =>
    rw [forEach_zero, forEach_zero]
    have : (⟨(st.buffers pb).size, (st.buffers pb).data⟩ : BufferObject) = st.buffers pb := rfl
    rw [this, Function.update_eq_self]
  | succ k ih =>
    rw [forEach_succ, forEach_succ, ih]
    cases hp : pts[k]? with
    | none => rfl
    | some p =>
      simp only [storeMapped, Function.update_same, Function.update_idem]

theorem fillData_eq (pts : List Point) :
    forEach pts.length
      (fun i d =>
        match pts[i]? with
        | some p => d.set i (some p)
        | none => d) (List.replicate pts.length (none : Option Point))
    = pts.map some := by
  rw [forEach_congr pts.length _
    (fun i d => d.set (0 + i) (some ((pts[i]?).getD ⟨0, 0, 0, 0⟩))) _
    (by intro i hi st; simp only [List.getElem?_eq_getElem hi, Option.getD_some, Nat.zero_add])]
  apply List.ext_getElem?
  intro j
  rw [getElem?_storeLoop, List.length_replicate, List.getElem?_map]
  by_cases hj : j < pts.length
  · have hc : 0 ≤ j ∧ j < 0 + pts.length ∧ j < pts.length := by omega
    rw [if_pos hc, List.getElem?_eq_getElem hj]
    simp [List.getElem?_eq_getElem hj]
  · have hc : ¬ (0 ≤ j ∧ j < 0 + pts.length ∧ j < pts.length) := by omega
    rw [if_neg hc, List.getElem?_eq_none (Nat.le_of_not_lt hj)]
    simp [List.getElem?_replicate, hj]

theorem fillBuffer_some {PointType : Type} (self : ControlPointContext PointType)
    (s : GLState) (h : self.points.length ≤ INT_MAX) :
    ∃ st, self.fillBuffer s = some st ∧
      st.buffers = Function.update s.buffers self.pointBuffer
        ⟨self.points.length * sizeofPoint, self.points.map some⟩ := by
  have hdiv : self.points.length * sizeofPoint / sizeofPoint = self.points.length :=
    Nat.mul_div_cancel _ (by decide)
  by_cases hn : self.points.length = 0
  · have hnil : self.points = [] := List.length_eq_zero.mp hn
    simp only [ControlPointContext.fillBuffer, hnil, List.length_nil, intLoop_of_le 0 _ _
      (Nat.zero_le _), Option.map_some', Option.some.injEq, exists_eq_left']
    simp [glBindBuffer, glBufferData, glMapBufferRange, glUnmapBuffer, forEach_zero]
  · have hpos : self.points.length * sizeofPoint ≠ 0 := by
      simp [sizeofPoint, hn]
    simp only [ControlPointContext.fillBuffer, intLoop_of_le _ _ _ h, Option.map_some',
      Option.some.injEq, exists_eq_left']
    simp only [glBindBuffer, glBufferData, glMapBufferRange,
      glUnmapBuffer, Function.update_same, hpos, Nat.zero_add, lt_irrefl, or_self,
      if_false, if_true, List.length_replicate, hdiv, Nat.zero_div, storeLoop_state,
      Function.update_idem, fillData_eq]

theorem fillBuffer_none {PointType : Type} (self : ControlPointContext PointType)
    (s : GLState) (h : INT_MAX < self.points.length) : self.fillBuffer s = none := by
  simp only [ControlPointContext.fillBuffer, intLoop_of_gt _ _ _ h, Option.map_none']

theorem setPoints_some {PointType : Type} [Converter PointType]
    (self : ControlPointContext PointType) (ps : List PointType) (s : GLState)
    (h : ps.length ≤ INT_MAX) :
    ∃ st, self.setPoints ps s
        = some ((⟨ps.map Converter.convertFrom, self.pointBuffer⟩ :
            ControlPointContext PointType), st) ∧
      st.buffers = Function.update s.buffers self.pointBuffer
        ⟨ps.length * sizeofPoint, (ps.map Converter.convertFrom).map some⟩ := by
  obtain ⟨st, hst, hb⟩ := fillBuffer_some
    (⟨ps.map Converter.convertFrom, self.pointBuffer⟩ : ControlPointContext PointType) s
    (by rw [List.length_map]; exact h)
  simp only [List.length_map] at hb
  refine ⟨st, ?_, hb⟩
  simp only [ControlPointContext.setPoints, foldl_push_back, List.nil_append, hst,
    Option.map_some']

theorem setPoints_none {PointType : Type} [Converter PointType]
    (self : ControlPointContext PointType) (ps : List PointType) (s : GLState)
    (h : INT_MAX < ps.length) : self.setPoints ps s = none := by
  have hf := fillBuffer_none
    (⟨ps.map Converter.convertFrom, self.pointBuffer⟩ : ControlPointContext PointType) s
    (by rw [List.length_map]; exact h)
  simp only [ControlPointContext.setPoints, foldl_push_back, List.nil_append, hf,
    Option.map_none']

theorem getProgram_fields (s : GLState) (type : Nat) :
    (shaders.Shaders.getProgram s type).2.buffers = s.buffers ∧
    (shaders.Shaders.getProgram s type).2.shaderStorageBinding = s.shaderStorageBinding ∧
    (shaders.Shaders.getProgram s type).2.shaderStorageBase = s.shaderStorageBase ∧
    (shaders.Shaders.getProgram s type).2.dispatches = s.dispatches := by
  unfold shaders.Shaders.getProgram
  cases hp : s.programs with
  | some programs => exact ⟨rfl, rfl, rfl, rfl⟩
  | none =>
    simp [shaders.Shaders.initializeProgams, shaders.Shaders.SHADER_COUNT, forEach_succ,
      forEach_zero, glCreateObject]

theorem evaluateCurve_some {PointType : Type} (self : CubicBSpline PointType)
    (ctx : ControlPointContext PointType) (s : GLState) (h4 : 4 ≤ ctx.getPointCount)
    (hfit : (ctx.getPointCount - 3) * 101 ≤ INT_MAX) :
    self.evaluateCurve ctx s
      = some (CubicBSpline.evaluateCurveCalls self ctx (CubicBSpline.groupCount ctx)
          ((ctx.getPointCount - 3) * 101) s) := by
  have hlt : ¬ ctx.getPointCount < 4 := by omega
  simp only [CubicBSpline.evaluateCurve, hlt, if_false,
    outputCount_inRange ctx (by omega) hfit,
    Option.map_some']

theorem evaluateCurve_none {PointType : Type} (self : CubicBSpline PointType)
    (ctx : ControlPointContext PointType) (s : GLState) (h4 : 4 ≤ ctx.getPointCount)
    (hg : ctx.getPointCount - 3 ≤ INT_MAX) (hov : INT_MAX < (ctx.getPointCount - 3) * 101) :
    self.evaluateCurve ctx s = none := by
  have hlt : ¬ ctx.getPointCount < 4 := by omega
  simp only [CubicBSpline.evaluateCurve, hlt, if_false,
    outputCount_overflow ctx (by omega) hg hov,
    Option.map_none']

theorem evaluateCurveCalls_fst {PointType : Type} (self : CubicBSpline PointType)
    (ctx : ControlPointContext PointType) (gc : Int) (oc : Nat) (s : GLState) :
    (CubicBSpline.evaluateCurveCalls self ctx gc oc s).1 = ⟨self.curvePointBuffer, oc⟩ := by
  simp only [CubicBSpline.evaluateCurveCalls]

theorem evaluateCurveCalls_dispatches {PointType : Type} (self : CubicBSpline PointType)
    (ctx : ControlPointContext PointType) (gc : Int) (oc : Nat) (s : GLState) :
    (CubicBSpline.evaluateCurveCalls self ctx gc oc s).2.dispatches
      = s.dispatches ++ [toGLuint gc] := by
  simp only [CubicBSpline.evaluateCurveCalls, glMemoryBarrier, glDispatchCompute,
    glBindBufferBase, glUseProgram, (getProgram_fields _ _).2.2.2, glBufferData, glBindBuffer]

theorem evaluateCurveCalls_buffer {PointType : Type} (self : CubicBSpline PointType)
    (ctx : ControlPointContext PointType) (gc : Int) (oc : Nat) (s : GLState) :
    (CubicBSpline.evaluateCurveCalls self ctx gc oc s).2.buffers self.curvePointBuffer
      = ⟨oc * sizeofPoint,
          runWorkGroups
            ((Function.update s.buffers self.curvePointBuffer
              ⟨oc * sizeofPoint, List.replicate oc none⟩) ctx.pointBuffer).data
            (toGLuint gc) (List.replicate oc none)⟩ := by
  have hdiv : oc * sizeofPoint / sizeofPoint = oc := Nat.mul_div_cancel _ (by decide)
  have h01 : (0 : Nat) ≠ 1 := by decide
  simp only [CubicBSpline.evaluateCurveCalls, glMemoryBarrier, glDispatchCompute,
    glBindBufferBase, glUseProgram, Function.update_same, Function.update_noteq h01,
    (getProgram_fields _ _).1]
  simp only [glBufferData, glBindBuffer, Function.update_same, hdiv,
    ControlPointContext.getPointBuffer]

theorem extractLoop_eq {PointType : Type} [Converter PointType] (pts : List Point)
    (load : Nat → Option Point)
    (hload : ∀ (k : Nat) (p : Point), pts[k]? = some p → load k = some p)
    (k : Nat) (hk : k ≤ pts.length) :
    forEach k
      (fun i (acc : Option (List PointType)) =>
        match acc, load i with
        | some cps, some p => some (cps ++ [Converter.convertTo p])
        | _, _ => none)
      (some [])
    = some ((pts.take k).map Converter.convertTo) := by
  induction k with
  | zero => simp [forEach_zero]
  | succ k ih =>
    have hlt : k < pts.length := by omega
    have ht : pts.take (k + 1) = pts.take k ++ [pts[k]] := by
      rw [List.take_succ, List.getElem?_eq_getElem hlt]
      rfl
    rw [forEach_succ, ih (by omega), hload k pts[k] (List.getElem?_eq_getElem hlt), ht,
      List.map_append]
    rfl

theorem extractPoints_eq {PointType : Type} [Converter PointType]
    (e : Evaluation PointType) (s : GLState) (pts : List Point)
    (hlen : pts.length = e.pointCount) (hmax : e.pointCount ≤ INT_MAX)
    (hh : (s.buffers e.buffer).holds pts) :
    (e.extractPoints s).1 = some (pts.map Converter.convertTo) := by
  obtain ⟨hsize, hdata⟩ := hh
  by_cases hc : e.pointCount = 0
  · have hnil : pts = [] := List.length_eq_zero.mp (by omega)
    simp [Evaluation.extractPoints, hc, intLoop_of_le 0 _ _ (Nat.zero_le _), forEach_zero,
      hnil]
  · have hpos : e.pointCount * sizeofPoint ≠ 0 := by
      simp [sizeofPoint, hc]
    have hfit : ¬ (s.buffers e.buffer).size < e.pointCount * sizeofPoint := by
      rw [← hlen]
      omega
    have hload : ∀ (k : Nat) (p : Point), pts[k]? = some p →
        loadMapped (glBindBuffer s e.buffer) (some ⟨e.buffer, 0⟩) k = some p := by
      intro k p hk
      simp [loadMapped, glBindBuffer, hdata k p hk]
    have hloop := @extractLoop_eq PointType _ pts _ hload pts.length (le_refl _)
    rw [List.take_length, hlen] at hloop
    simp only [Evaluation.extractPoints, glMapBufferRange, glBindBuffer, hpos, Nat.zero_add,
      hfit, or_self, if_false, Nat.zero_div, Bool.false_eq_true, intLoop_of_le _ _ _ hmax]
    exact congrArg (fun o => Option.join (some o)) hloop

theorem extractPoints_none {PointType : Type} [Converter PointType]
    (e : Evaluation PointType) (s : GLState) (h : INT_MAX < e.pointCount) :
    (e.extractPoints s).1 = none := by
  simp only [Evaluation.extractPoints, intLoop_of_gt _ _ _ h]
  rfl

theorem allDefined_holds (d : List (Option Point)) (size : Nat)
    (hsize : d.length * sizeofPoint ≤ size)
    (hall : ∀ j, j < d.length → ∃ v, d[j]? = some (some v)) :
    BufferObject.holds ⟨size, d⟩ (d.map (fun o => o.getD ⟨0, 0, 0, 0⟩)) := by
  refine ⟨by simpa using hsize, ?_⟩
  intro k p hk
  rw [List.getElem?_map] at hk
  by_cases hlt : k < d.length
  · obtain ⟨v, hv⟩ := hall k hlt
    rw [hv] at hk
    simp only [Option.map_some', Option.getD_some, Option.some.injEq] at hk
    rw [← hk]
    exact hv
  · rw [List.getElem?_eq_none (Nat.le_of_not_lt hlt)] at hk
    simp at hk

/-! ### The whole pipeline -/

theorem pipeline_samples {PointType : Type} [Converter PointType]
    (self : CubicBSpline PointType) (ctx : ControlPointContext PointType) (s : GLState)
    (hbuf : self.curvePointBuffer ≠ ctx.pointBuffer) (h4 : 4 ≤ ctx.getPointCount)
    (hfit : (ctx.getPointCount - 3) * 101 ≤ INT_MAX)
    (hcp : (s.buffers ctx.pointBuffer).data = ctx.getPoints.map some) :
    ∃ (e : Evaluation PointType) (s2 : GLState) (out : List PointType),
      self.evaluateCurve ctx s = some (e, s2) ∧
      e.pointCount = (ctx.getPointCount - 3) * 101 ∧
      (e.extractPoints s2).1 = some out ∧
      out.length = (ctx.getPointCount - 3) * 101 ∧
      ∀ g i, g < ctx.getPointCount - 3 → i < 101 →
        ∃ v, shaders.source.CubicBSpline (ctx.getPoints.map some) g i
            = some (g * 101 + i, v) ∧
          out[g * 101 + i]? = some (Converter.convertTo v) := by
  have hfit2 : (ctx.getPointCount - 3) * 101 ≤ 2147483647 := hfit
  have hlenps : ctx.getPoints.length = ctx.getPointCount := rfl
  have hgroups : toGLuint (CubicBSpline.groupCount ctx) = ctx.getPointCount - 3 := by
    rw [dispatchCount_eq ctx (by omega), Nat.mod_eq_of_lt (by omega)]
  have hb := evaluateCurveCalls_buffer self ctx (CubicBSpline.groupCount ctx)
    ((ctx.getPointCount - 3) * 101) s
  rw [hgroups, Function.update_noteq (Ne.symm hbuf), hcp] at hb
  have hfst := evaluateCurveCalls_fst self ctx (CubicBSpline.groupCount ctx)
    ((ctx.getPointCount - 3) * 101) s
  have hdl : (runWorkGroups (ctx.getPoints.map some) (ctx.getPointCount - 3)
      (List.replicate ((ctx.getPointCount - 3) * 101) none)).length
      = (ctx.getPointCount - 3) * 101 := by
    rw [length_runWorkGroups, List.length_replicate]
  have hslot : ∀ g i, g < ctx.getPointCount - 3 → i < 101 →
      ∃ v, shaders.source.CubicBSpline (ctx.getPoints.map some) g i = some (g * 101 + i, v) ∧
        (runWorkGroups (ctx.getPoints.map some) (ctx.getPointCount - 3)
          (List.replicate ((ctx.getPointCount - 3) * 101) none))[g * 101 + i]?
          = some (some v) := by
    intro g i hg hi
    exact runWorkGroups_getElem? ctx.getPoints (ctx.getPointCount - 3) _ (by omega)
      (by omega) g i hg hi (by rw [List.length_replicate]; omega)
  generalize runWorkGroups (ctx.getPoints.map some) (ctx.getPointCount - 3)
      (List.replicate ((ctx.getPointCount - 3) * 101) none) = d at hb hdl hslot
  have hall : ∀ j, j < d.length → ∃ v, d[j]? = some (some v) := by
    intro j hj
    rw [hdl] at hj
    obtain ⟨v, _, hv⟩ := hslot (j / 101) (j % 101) (by omega) (Nat.mod_lt _ (by decide))
    have hjj : j / 101 * 101 + j % 101 = j := by omega
    rw [hjj] at hv
    exact ⟨v, hv⟩
  have hholds := allDefined_holds d ((ctx.getPointCount - 3) * 101 * sizeofPoint)
    (by rw [hdl]) hall
  have hcount : (CubicBSpline.evaluateCurveCalls self ctx (CubicBSpline.groupCount ctx)
      ((ctx.getPointCount - 3) * 101) s).1.pointCount = (ctx.getPointCount - 3) * 101 := by
    rw [hfst]
  have hex := @extractPoints_eq PointType _
    (CubicBSpline.evaluateCurveCalls self ctx (CubicBSpline.groupCount ctx)
      ((ctx.getPointCount - 3) * 101) s).1
    (CubicBSpline.evaluateCurveCalls self ctx (CubicBSpline.groupCount ctx)
      ((ctx.getPointCount - 3) * 101) s).2 (d.map (fun o => o.getD ⟨0, 0, 0, 0⟩))
    (by rw [hcount, List.length_map, hdl])
    (by rw [hcount]; exact hfit)
    (by rw [hfst, hb]; exact hholds)
  refine ⟨_, _, _, evaluateCurve_some self ctx s h4 hfit, hcount, hex,
    by rw [List.length_map, List.length_map, hdl], ?_⟩
  intro g i hg hi
  obtain ⟨v, hk, hv⟩ := hslot g i hg hi
  refine ⟨v, hk, ?_⟩
  rw [List.getElem?_map, List.getElem?_map, hv]
  rfl

theorem pipeline_after_setPoints {PointType : Type} [Converter PointType]
    (self : CubicBSpline PointType) (ctx0 : ControlPointContext PointType)
    (ps : List PointType) (s0 : GLState)
    (hbuf : self.curvePointBuffer ≠ ctx0.pointBuffer) (h4 : 4 ≤ ps.length)
    (hmax : ps.length ≤ INT_MAX) (hfit : (ps.length - 3) * 101 ≤ INT_MAX) :
    ∃ (ctx : ControlPointContext PointType) (s1 : GLState) (e : Evaluation PointType)
      (s2 : GLState) (out : List PointType),
      ctx0.setPoints ps s0 = some (ctx, s1) ∧
      self.evaluateCurve ctx s1 = some (e, s2) ∧
      (e.extractPoints s2).1 = some out ∧
      out.length = (ps.length - 3) * 101 ∧
      ∀ g i, g < ps.length - 3 → i < 101 →
        ∃ v, shaders.source.CubicBSpline ((ps.map Converter.convertFrom).map some) g i
            = some (g * 101 + i, v) ∧
          out[g * 101 + i]? = some (Converter.convertTo v) := by
  obtain ⟨s1, hset, hbufs⟩ := setPoints_some ctx0 ps s0 hmax
  have hcount : (⟨ps.map Converter.convertFrom, ctx0.pointBuffer⟩ :
      ControlPointContext PointType).getPointCount = ps.length := List.length_map _ _
  obtain ⟨e, s2, out, hev, _, hex, hlen, hs⟩ := pipeline_samples self
    (⟨ps.map Converter.convertFrom, ctx0.pointBuffer⟩ : ControlPointContext PointType) s1
    hbuf (by rw [hcount]; exact h4) (by rw [hcount]; exact hfit)
    (by rw [hbufs, Function.update_same]; rfl)
  rw [hcount] at hlen hs
  exact ⟨_, s1, e, s2, out, hset, hev, hex, hlen, hs⟩

theorem scenario_kernel :
    shaders.source.CubicBSpline (scenarioPoints.map some) 0 0 = some (0, ⟨1, 5 / 3, 0, 1⟩) ∧
    shaders.source.CubicBSpline (scenarioPoints.map some) 0 100
      = some (100, ⟨2, 5 / 3, 0, 1⟩) := by
  constructor
  · rw [scenarioPoints, kernel_map_some _ 0 0 _ _ _ _ (by decide) rfl rfl rfl rfl,
      splinePoint_zero]
    simp only [knotBlend, Option.some.injEq, Prod.mk.injEq, Point.mk.injEq, true_and]
    norm_num
  · rw [scenarioPoints, kernel_map_some _ 0 100 _ _ _ _ (by decide) rfl rfl rfl rfl,
      splinePoint_one]
    simp only [knotBlend, Option.some.injEq, Prod.mk.injEq, Point.mk.injEq, true_and]
    norm_num

theorem scenario_pipeline :
    ∃ (ctx : ControlPointContext Point) (s1 : GLState) (e : Evaluation Point)
      (s2 : GLState) (out : List Point),
      emptyContext.setPoints scenarioPoints GLState.initial = some (ctx, s1) ∧
      sampleSpline.evaluateCurve ctx s1 = some (e, s2) ∧
      (e.extractPoints s2).1 = some out ∧
      out.length = 101 ∧ out[0]? = some ⟨1, 5 / 3, 0, 1⟩ ∧
      out[100]? = some ⟨2, 5 / 3, 0, 1⟩ := by
  obtain ⟨ctx, s1, e, s2, out, hset, hev, hex, hlen, hs⟩ := pipeline_after_setPoints
    sampleSpline emptyContext scenarioPoints GLState.initial (by decide) (by decide)
    (by unfold INT_MAX; decide) (by unfold INT_MAX; decide)
  have hid : (scenarioPoints.map (Converter.convertFrom : Point → Point)) = scenarioPoints :=
    rfl
  rw [hid] at hs
  refine ⟨ctx, s1, e, s2, out, hset, hev, hex, hlen, ?_, ?_⟩
  · obtain ⟨v, hk, hv⟩ := hs 0 0 (by decide) (by decide)
    rw [scenario_kernel.1] at hk
    have hv2 : v = ⟨1, 5 / 3, 0, 1⟩ := (congrArg Prod.snd (Option.some.inj hk)).symm
    rw [hv2] at hv
    exact hv
  · obtain ⟨v, hk, hv⟩ := hs 0 100 (by decide) (by decide)
    rw [scenario_kernel.2] at hk
    have hv2 : v = ⟨2, 5 / 3, 0, 1⟩ := (congrArg Prod.snd (Option.some.inj hk)).symm
    rw [hv2] at hv
    exact hv

/-! ### The large inputs -/

theorem largeContext_count : largeContext.getPointCount = 42524432 := by
  simp only [largeContext, largePoints, ControlPointContext.getPointCount,
    List.length_replicate]

theorem largeContext_overflow (spline : CubicBSpline Point) (s : GLState) :
    spline.evaluateCurve largeContext s = none := by
  have hc := largeContext_count
  exact evaluateCurve_none spline largeContext s (by rw [hc]; decide)
    (by rw [hc]; unfold INT_MAX; decide) (by rw [hc]; unfold INT_MAX; decide)

theorem largerPoints_window (g : Nat) (hg : g < 42524433) :
    largerPoints[g]? = some ⟨0, 0, 0, 1⟩ := by
  rw [largerPoints, List.getElem?_replicate, if_pos hg]

end helpers

/-! ## The claims -/

open curve

/-- C1 (failing input): a control point store holding 42524432 points has
`(n - 3) * 101 = 4294967329`.  The `int` product `groupCount * 101` of
`evaluateCurve` overflows, so the call has no defined result; no 32-bit
`pointCount` can equal `(n - 3) * 101`, and reducing the product modulo `2^32`
gives 33. -/
theorem evaluateCurve_pointCount_overflow :
    4 ≤ largeContext.getPointCount ∧
    (largeContext.getPointCount - 3) * 101 = 4294967329 ∧
    sampleSpline.evaluateCurve largeContext GLState.initial = none ∧
    (∀ e : Evaluation Point, e.pointCount < 4294967296 →
      e.pointCount ≠ (largeContext.getPointCount - 3) * 101) ∧
    toGLuint (((largeContext.getPointCount - 3 : Nat) : Int) * 101) = 33 := by
  have hc := largeContext_count
  refine ⟨by rw [hc]; decide, by rw [hc], largeContext_overflow _ _, ?_, ?_⟩
  · intro e he
    rw [hc]
    omega
  · rw [hc]
    decide

/-- C2: for every control point store holding fewer than four points,
`evaluateCurve` returns the empty Evaluation (buffer 0, sample count 0) and
leaves the context unchanged: no resize, no dispatch, no barrier. -/
theorem evaluateCurve_insufficient {PointType : Type} (self : CubicBSpline PointType)
    (ctx : ControlPointContext PointType) (s : GLState) (h : ctx.getPointCount < 4) :
    ∃ (e : Evaluation PointType) (s2 : GLState),
      self.evaluateCurve ctx s = some (e, s2) ∧
      e.pointCount = 0 ∧ e.buffer = 0 ∧ s2 = s ∧ s2.dispatches = s.dispatches := by
  refine ⟨⟨0, 0⟩, s, ?_, rfl, rfl, rfl, rfl⟩
  simp only [CubicBSpline.evaluateCurve, h, if_true]

/-- Witness of C2: a store of three points. -/
theorem evaluateCurve_insufficient_witness :
    shortContext.getPointCount < 4 ∧
    ∃ (e : Evaluation Point) (s2 : GLState),
      sampleSpline.evaluateCurve shortContext GLState.initial = some (e, s2) ∧
      e.pointCount = 0 ∧ e.buffer = 0 ∧ s2 = GLState.initial ∧
      s2.dispatches = GLState.initial.dispatches :=
  ⟨by decide, evaluateCurve_insufficient sampleSpline shortContext GLState.initial (by decide)⟩

/-- C8: for the canonical point adapter `Converter<Point>`, `convertFrom` and
`convertTo` are the identity, so converting to canonical and back returns the
point. -/
theorem converter_point_identity (p : Point) :
    (Converter.convertFrom p : Point) = p ∧ (Converter.convertTo p : Point) = p ∧
    (Converter.convertTo (Converter.convertFrom p : Point) : Point) = p :=
  ⟨rfl, rfl, rfl⟩

/-- C3: for every four control points the kernel, over exact rationals, stores
in slot 0 (`t = 0`) the blend `(1/6)P0 + (4/6)P1 + (1/6)P2` and in slot 100
(`t = 1`) the blend `(1/6)P1 + (4/6)P2 + (1/6)P3`; for the control points
`(0,0,0,1), (1,2,0,1), (2,2,0,1), (3,0,0,1)` sent through `setPoints`,
`evaluateCurve` and `extractPoints` every call is defined, there are 101
samples, sample 0 is `(1, 5/3, 0, 1)` and sample 100 is `(2, 5/3, 0, 1)`. -/
theorem endpoint_samples (P0 P1 P2 P3 : Point) :
    shaders.source.CubicBSpline ([P0, P1, P2, P3].map some) 0 0
      = some (0, knotBlend P0 P1 P2) ∧
    shaders.source.CubicBSpline ([P0, P1, P2, P3].map some) 0 100
      = some (100, knotBlend P1 P2 P3) ∧
    ∃ (ctx : ControlPointContext Point) (s1 : GLState) (e : Evaluation Point)
      (s2 : GLState) (out : List Point),
      emptyContext.setPoints scenarioPoints GLState.initial = some (ctx, s1) ∧
      sampleSpline.evaluateCurve ctx s1 = some (e, s2) ∧
      (e.extractPoints s2).1 = some out ∧
      out.length = 101 ∧ out[0]? = some ⟨1, 5 / 3, 0, 1⟩ ∧
      out[100]? = some ⟨2, 5 / 3, 0, 1⟩ := by
  have h0 := kernel_map_some [P0, P1, P2, P3] 0 0 P0 P1 P2 P3 (by decide) rfl rfl rfl rfl
  have h1 := kernel_map_some [P0, P1, P2, P3] 0 100 P0 P1 P2 P3 (by decide) rfl rfl rfl rfl
  rw [splinePoint_zero] at h0
  rw [splinePoint_one] at h1
  exact ⟨h0, h1, scenario_pipeline⟩

/-- C4 (failing input): with 42524433 control points and segment `k =
42524428` (so `k + 1 < n - 3`) the kernel computes the closed-form blend for the
last sample of segment `k` and for the first sample of segment `k + 1`, but its
32-bit invocation index wraps: it stores them in slots 32 and 33, not in slots
`k*101 + 100 = 4294967328` and `(k+1)*101 = 4294967329`; on the host
`evaluateCurve` has no defined result for this store. -/
theorem knot_slot_wraps :
    5 ≤ largerPoints.length ∧ 42524428 + 1 < largerPoints.length - 3 ∧
    shaders.source.CubicBSpline (largerPoints.map some) 42524428 100
      = some (32, knotBlend ⟨0, 0, 0, 1⟩ ⟨0, 0, 0, 1⟩ ⟨0, 0, 0, 1⟩) ∧
    shaders.source.CubicBSpline (largerPoints.map some) (42524428 + 1) 0
      = some (33, knotBlend ⟨0, 0, 0, 1⟩ ⟨0, 0, 0, 1⟩ ⟨0, 0, 0, 1⟩) ∧
    42524428 * 101 + 100 = 4294967328 ∧ (42524428 + 1) * 101 = 4294967329 ∧
    sampleSpline.evaluateCurve (⟨largerPoints, 1⟩ : ControlPointContext Point)
      GLState.initial = none := by
  have hlen : largerPoints.length = 42524433 := by
    simp only [largerPoints, List.length_replicate]
  have hcount : (⟨largerPoints, 1⟩ : ControlPointContext Point).getPointCount = 42524433 :=
    hlen
  refine ⟨by rw [hlen]; decide, by rw [hlen]; decide, ?_, ?_, rfl, rfl, ?_⟩
  · rw [kernel_map_some_wrap largerPoints 42524428 100 _ _ _ _ (by decide)
      (largerPoints_window _ (by decide)) (largerPoints_window _ (by decide))
      (largerPoints_window _ (by decide)) (largerPoints_window _ (by decide)),
      splinePoint_one]
  · rw [kernel_map_some_wrap largerPoints (42524428 + 1) 0 _ _ _ _ (by decide)
      (largerPoints_window _ (by decide)) (largerPoints_window _ (by decide))
      (largerPoints_window _ (by decide)) (largerPoints_window _ (by decide)),
      splinePoint_zero]
  · exact evaluateCurve_none _ _ _ (by rw [hcount]; decide)
      (by rw [hcount]; unfold INT_MAX; decide) (by rw [hcount]; unfold INT_MAX; decide)

/-- C5 (amended): for every group index `g < n - 3` and every sample index `i`
in `0..100` whose slot index `g*101 + i` is below `2^32`, the kernel stores in
slot `g*101 + i` the vector `G × M × [t³, t², t, 1]ᵀ` with `t = i * 0.01`, where
the columns of `G` are the control points at indices `g, g+1, g+2, g+3` and `M`
is 1/6 times the matrix whose columns are `[-1,3,-3,1]`, `[3,-6,3,0]`,
`[-3,0,3,0]`, `[1,4,1,0]`. -/
theorem kernel_sample_columns (ps : List Point) (g i : Nat) (hg : g < ps.length - 3)
    (_hi : i ≤ 100) (hfit : g * 101 + i < 4294967296) :
    ∃ p0 p1 p2 p3 v, ps[g]? = some p0 ∧ ps[g + 1]? = some p1 ∧ ps[g + 2]? = some p2 ∧
      ps[g + 3]? = some p3 ∧
      shaders.source.CubicBSpline (ps.map some) g i = some (g * 101 + i, v) ∧
      toVector v = columnSample p0 p1 p2 p3 i := by
  obtain ⟨p0, p1, p2, p3, h0, h1, h2, h3⟩ := window_exists ps g (by omega)
  exact ⟨p0, p1, p2, p3, _, h0, h1, h2, h3,
    kernel_map_some ps g i p0 p1 p2 p3 hfit h0 h1 h2 h3, splinePoint_toVector p0 p1 p2 p3 i⟩

/-- Witness of C5 (amended): five control points, group 1, sample index 37. -/
theorem kernel_sample_columns_witness :
    1 < fivePoints.length - 3 ∧ 37 ≤ 100 ∧ 1 * 101 + 37 < 4294967296 ∧
    ∃ p0 p1 p2 p3 v, fivePoints[1]? = some p0 ∧ fivePoints[1 + 1]? = some p1 ∧
      fivePoints[1 + 2]? = some p2 ∧ fivePoints[1 + 3]? = some p3 ∧
      shaders.source.CubicBSpline (fivePoints.map some) 1 37 = some (1 * 101 + 37, v) ∧
      toVector v = columnSample p0 p1 p2 p3 37 :=
  ⟨by decide, by decide, by decide,
    kernel_sample_columns fivePoints 1 37 (by decide) (by decide) (by decide)⟩

/-- C5 fails as stated: for the scenario points, group 0 and sample index 0 the
kernel stores `(1, 5/3, 0, 1)` in slot 0, while the product of the matrices
whose rows are the control points and the coefficient lists is
`(0, 1/6, 1/3, 1/2)`. -/
theorem kernel_sample_not_rows :
    shaders.source.CubicBSpline (scenarioPoints.map some) 0 0 = some (0, ⟨1, 5 / 3, 0, 1⟩) ∧
    specSample ⟨0, 0, 0, 1⟩ ⟨1, 2, 0, 1⟩ ⟨2, 2, 0, 1⟩ ⟨3, 0, 0, 1⟩ 0
      = ![0, 1 / 6, 1 / 3, 1 / 2] ∧
    toVector ⟨1, 5 / 3, 0, 1⟩
      ≠ specSample ⟨0, 0, 0, 1⟩ ⟨1, 2, 0, 1⟩ ⟨2, 2, 0, 1⟩ ⟨3, 0, 0, 1⟩ 0 := by
  have hs : specSample ⟨0, 0, 0, 1⟩ ⟨1, 2, 0, 1⟩ ⟨2, 2, 0, 1⟩ ⟨3, 0, 0, 1⟩ 0
      = ![0, 1 / 6, 1 / 3, 1 / 2] := by
    ext k
    fin_cases k <;>
      simp [specSample, specGeometry, specCoefficients, specParameterVector, Matrix.mulVec,
        Matrix.dotProduct, Matrix.mul_apply, Fin.sum_univ_four] <;> norm_num
  refine ⟨scenario_kernel.1, hs, ?_⟩
  · rw [hs]
    intro h
    have h0 := congrFun h 0
    simp [toVector] at h0

/-- C10: for every control point store holding `n >= 4` points and every group
index `g < n - 3` (the dispatched group count never exceeds `n - 3`), the four
control-point loads of the kernel at `g, g+1, g+2, g+3` are inside the buffer of
`n` points: `g + 3 < n`, each load returns a point and the kernel produces its
store for every invocation. -/
theorem kernel_loads_in_range {PointType : Type} (ctx : ControlPointContext PointType)
    (h4 : 4 ≤ ctx.getPointCount) (g : Nat) (hg : g < ctx.getPointCount - 3) :
    toGLuint (CubicBSpline.groupCount ctx) ≤ ctx.getPointCount - 3 ∧
    g + 3 < ctx.getPointCount ∧
    (∀ k, k ≤ 3 →
      (shaders.source.loadControlPoint (ctx.getPoints.map some) (g + k)).isSome = true) ∧
    (shaders.source.geometry (ctx.getPoints.map some) g).isSome = true ∧
    ∀ i, (shaders.source.CubicBSpline (ctx.getPoints.map some) g i).isSome = true := by
  have hlen : ctx.getPoints.length = ctx.getPointCount := rfl
  have hgeo := geometry_isSome ctx.getPoints g (by omega)
  refine ⟨?_, by omega, ?_, hgeo, ?_⟩
  · rw [dispatchCount_eq ctx (by omega)]
    exact Nat.mod_le _ _
  · intro k hk
    rw [loadControlPoint_map_some, List.getElem?_eq_getElem (by omega)]
    rfl
  · intro i
    obtain ⟨m, hm⟩ := Option.isSome_iff_exists.mp hgeo
    simp only [shaders.source.CubicBSpline, hm, Option.isSome_some]

/-- Witness of C10: the scenario points, group 0. -/
theorem kernel_loads_in_range_witness :
    4 ≤ (⟨scenarioPoints, 1⟩ : ControlPointContext Point).getPointCount ∧
    0 + 3 < (⟨scenarioPoints, 1⟩ : ControlPointContext Point).getPointCount ∧
    (shaders.source.geometry
      ((⟨scenarioPoints, 1⟩ : ControlPointContext Point).getPoints.map some) 0).isSome
        = true :=
  ⟨by decide,
    (kernel_loads_in_range (⟨scenarioPoints, 1⟩ : ControlPointContext Point) (by decide) 0
      (by decide)).2.1,
    (kernel_loads_in_range (⟨scenarioPoints, 1⟩ : ControlPointContext Point) (by decide) 0
      (by decide)).2.2.2.1⟩

/-- C7 (failing input): `setPoints` with a sequence of `2^31 + 1` points has no
defined result: the `int` counter of the copy loop of `fillBuffer` overflows
after the iteration with `i = INT_MAX`, before the last point is copied; with
the four scenario points the call stores the whole sequence. -/
theorem setPoints_counter_overflow :
    hugePoints.length = 2147483649 ∧
    emptyContext.setPoints hugePoints GLState.initial = none ∧
    ∃ st, emptyContext.setPoints scenarioPoints GLState.initial
        = some ((⟨scenarioPoints, 1⟩ : ControlPointContext Point), st) ∧
      (st.buffers 1).size = 4 * sizeofPoint ∧ (st.buffers 1).data = scenarioPoints.map some := by
  have hlen : hugePoints.length = 2147483649 := by
    simp only [hugePoints, List.length_replicate]
  refine ⟨hlen, setPoints_none _ _ _ (by rw [hlen]; unfold INT_MAX; decide), ?_⟩
  obtain ⟨st, hst, hb⟩ := setPoints_some emptyContext scenarioPoints GLState.initial
    (by unfold INT_MAX; decide)
  refine ⟨st, hst, ?_, ?_⟩
  · rw [hb]
    rfl
  · rw [hb]
    rfl

/-- C6 (failing inputs): an Evaluation with sample count `2^31 + 1` has no
defined extraction whatever its buffer holds, because the `int` counter of the
loop of `extractPoints` overflows; and after `setPoints` with 42524432 control
points, which is defined, `evaluateCurve` has no defined result, so no sequence
with an element `g*101 + i` per sample is extracted. -/
theorem extractPoints_order_overflow :
    (∀ s : GLState, ((⟨3, 2147483649⟩ : Evaluation Point).extractPoints s).1 = none) ∧
    ∃ st, emptyContext.setPoints largePoints GLState.initial = some (largeContext, st) ∧
      sampleSpline.evaluateCurve largeContext st = none := by
  refine ⟨fun s => extractPoints_none _ s (by unfold INT_MAX; decide), ?_⟩
  have hlen : largePoints.length = 42524432 := by
    simp only [largePoints, List.length_replicate]
  obtain ⟨st, hst, _⟩ := setPoints_some emptyContext largePoints GLState.initial
    (by rw [hlen]; unfold INT_MAX; decide)
  have hid : (largePoints.map (Converter.convertFrom : Point → Point)) = largePoints :=
    List.map_id _
  rw [hid] at hst
  exact ⟨st, hst, largeContext_overflow _ _⟩

/-- C9 (failing input): for a store of 42524432 control points `evaluateCurve`
has no defined result (the `int` product `groupCount * 101` overflows); the
`n - 3 = 42524429` groups have more invocations than any 32-bit output count
has slots, and the 32-bit slot index of invocation 100 of group 42524428 wraps
to 32, the slot of invocation 32 of group 0. -/
theorem dispatch_slots_overflow :
    sampleSpline.evaluateCurve largeContext GLState.initial = none ∧
    largeContext.getPointCount - 3 = 42524429 ∧
    (∀ c : Nat, c < 4294967296 → c < (largeContext.getPointCount - 3) * 101) ∧
    shaders.source.gl_GlobalInvocationID 42524428 100 = 32 ∧
    shaders.source.gl_GlobalInvocationID 0 32 = 32 := by
  have hc := largeContext_count
  refine ⟨largeContext_overflow _ _, by rw [hc], ?_, ?_, ?_⟩
  · intro c hlt
    rw [hc]
    omega
  · rw [globalInvocationID_eq]
  · rw [globalInvocationID_eq]

end castlejoe
